import Mathlib

/-!
Verification of the user-block plugin core (models.py, utils.py, methods.py,
plugin.py) as a shallow embedding in Lean 4.

Modelling conventions:
* Python `int` is `Int`; epoch timestamps and durations are `Int`.
* `Optional[int]` is `Option Int`; Python truthiness of an `Optional[int]`
  (`if x:`) is false for both `None` and `0`, which the embedding spells out
  wherever the source relies on it.
* Python `dict` (insertion ordered, unique keys) is an association list
  `List (String × BlockRecord)` with insertion-ordered update semantics.
* The external collaborators (the host user directory, its `save()` call and
  the scoped blob store) are oracle inputs: `SysWorld` carries the lookup
  results and whether `save()` succeeds, and the handlers thread the store
  blob and the persisted user entity through explicitly.
-/

set_option autoImplicit false

/-- Plugin configuration, from `plugin.py` (`BlockConfig`).  The pydantic
field constraints (`ge`/`le`) are recorded as comments and appear as
hypotheses of those theorems that need them. -/
structure BlockConfig where
  ENABLE_PREVENT_TRIGGER : Bool
  ENABLE_FULL_BLOCK : Bool
  /-- pydantic: `ge=0, le=2592000`; 0 means unlimited. -/
  MAX_BLOCK_SECONDS : Int
  /-- pydantic: `ge=60, le=604800`. -/
  DEFAULT_BLOCK_SECONDS : Int
  ALLOW_PERMANENT_BLOCK : Bool
  SHOW_BLOCKED_USERS_IN_PROMPT : Bool
  /-- pydantic: `ge=1, le=20`. -/
  MAX_PROMPT_DISPLAY_COUNT : Int
deriving DecidableEq, Repr

/-- Embedding of `models.BlockType`: closed two-variant enumeration. -/
inductive BlockType where
  | PREVENT_TRIGGER
  | FULL_BLOCK
deriving DecidableEq, Repr

/-- Embedding of `models.BlockRecord`. -/
structure BlockRecord where
  user_id : String
  username : String
  block_type : BlockType
  reason : String := ""
  start_time : Int
  expire_time : Option Int := none
  is_permanent : Bool := false
deriving DecidableEq, Repr

/-- Python truthiness test `if record.expire_time:` on an `Optional[int]`:
false for `None` and for `0`, true otherwise. -/
def intTruthy : Option Int → Bool
  | none => false
  | some e => e != 0

/-- Lookup in a Python dict modelled as an association list
(`self.blocks.get(user_id)` / `self.blocks[user_id]`). -/
def dictGet (k : String) : List (String × BlockRecord) → Option BlockRecord
  | [] => none
  | (k', v) :: rest => if k' = k then some v else dictGet k rest

/-- Assignment `self.blocks[k] = v` on a Python dict: overwrite in place if
the key is present, else append at the end (insertion order). -/
def dictSet (k : String) (v : BlockRecord) : List (String × BlockRecord) → List (String × BlockRecord)
  | [] => [(k, v)]
  | (k', v') :: rest => if k' = k then (k, v) :: rest else (k', v') :: dictSet k v rest

/-- Deletion `del self.blocks[k]` on a Python dict: removes the (unique)
entry with key `k`, if present. -/
def dictDelete (k : String) : List (String × BlockRecord) → List (String × BlockRecord)
  | [] => []
  | (k', v') :: rest => if k' = k then rest else (k', v') :: dictDelete k rest

/-- Embedding of `models.BlockData`: the per-conversation collection of block records. -/
structure BlockData where
  blocks : List (String × BlockRecord) := []
deriving DecidableEq, Repr

/-- Embedding of `BlockData.add_block`. -/
def BlockData.add_block (bd : BlockData) (record : BlockRecord) : BlockData :=
  ⟨dictSet record.user_id record bd.blocks⟩

/-- Embedding of `BlockData.remove_block`: deletes if present, reports whether anything
was removed (the Python method mutates `self` and returns the `bool`). -/
def BlockData.remove_block (bd : BlockData) (user_id : String) : BlockData × Bool :=
  if (dictGet user_id bd.blocks).isSome then (⟨dictDelete user_id bd.blocks⟩, true)
  else (bd, false)

/-- Embedding of `BlockData.get_block`. -/
def BlockData.get_block (bd : BlockData) (user_id : String) : Option BlockRecord :=
  dictGet user_id bd.blocks

/-- The filter condition of `BlockData.get_active_blocks`:
`record.is_permanent or (record.expire_time and record.expire_time > current_time)`.
The inner conjunct is a Python truthiness chain, so `expire_time = 0` makes
it false regardless of `current_time`. -/
def activeCond (current_time : Int) (record : BlockRecord) : Bool :=
  record.is_permanent || (intTruthy record.expire_time &&
    match record.expire_time with
    | some e => decide (e > current_time)
    | none => false)

/-- Embedding of `BlockData.get_active_blocks`: builds the sub-dict of records passing
`activeCond`, preserving insertion order. -/
def BlockData.get_active_blocks (bd : BlockData) (current_time : Int) : List (String × BlockRecord) :=
  bd.blocks.filter (fun p => activeCond current_time p.2)

/-- The collection condition of `BlockData.cleanup_expired`:
`not record.is_permanent and record.expire_time and record.expire_time <= current_time`.
Again a truthiness chain: `expire_time = 0` is never collected. -/
def expiredCond (current_time : Int) (record : BlockRecord) : Bool :=
  !record.is_permanent && intTruthy record.expire_time &&
    (match record.expire_time with
     | some e => decide (e ≤ current_time)
     | none => false)

/-- Embedding of `BlockData.cleanup_expired`: first collects the user ids of records
matching `expiredCond`, then deletes each collected id, and returns the
new collection together with the number of collected ids. -/
def BlockData.cleanup_expired (bd : BlockData) (current_time : Int) : BlockData × Nat :=
  let expired_users := (bd.blocks.filter (fun p => expiredCond current_time p.2)).map Prod.fst
  (⟨expired_users.foldl (fun bs u => dictDelete u bs) bd.blocks⟩, expired_users.length)

/-- Embedding of `utils.calculate_expire_time`: `None` means permanent; otherwise the
requested seconds are clamped by `MAX_BLOCK_SECONDS` when that cap is
positive, and added to the current time. -/
def calculate_expire_time (cfg : BlockConfig) (now : Int) (seconds : Option Int) : Option Int :=
  match seconds with
  | none => none
  | some s =>
    let s' := if cfg.MAX_BLOCK_SECONDS > 0 then min s cfg.MAX_BLOCK_SECONDS else s
    some (now + s')

/-- Embedding of `utils.format_time_remaining`. -/
def format_time_remaining (now : Int) (expire_time : Option Int) : String :=
  match expire_time with
  | none => "永久"
  | some e =>
    let remaining := e - now
    if remaining ≤ 0 then "已过期"
    else
      let days := remaining / 86400
      let hours := (remaining % 86400) / 3600
      let minutes := (remaining % 3600) / 60
      if days > 0 then toString days ++ "天" ++ toString hours ++ "小时"
      else if hours > 0 then toString hours ++ "小时" ++ toString minutes ++ "分钟"
      else toString minutes ++ "分钟"

/-- Embedding of `utils.get_block_type_description`. -/
def get_block_type_description : BlockType → String
  | BlockType.PREVENT_TRIGGER => "禁止触发（可见但无法主动唤醒）"
  | BlockType.FULL_BLOCK => "完全屏蔽（完全不可见）"

/-- The external user entity (`nekro_agent.models.db_user.DBUser`) as seen
through this core: an identity key, a display name, and the two mutable
optional-timestamp fields.  A `datetime` value is represented by its epoch
seconds. -/
structure DBUser where
  unique_id : String
  username : String
  prevent_trigger_until : Option Int
  ban_until : Option Int
deriving DecidableEq, Repr

/-- Embedding of `utils.apply_block_to_system`.  Here `user` is the result of the internal
`get_user_by_unique_id` lookup (an oracle input: the directory is a host
collaborator); `saveOk` is whether `user.save()` succeeds.  The conversion
`datetime.fromtimestamp(expire_time)` is guarded by `if expire_time:`, so a
zero timestamp is converted to `None`.  Any failure yields `false` and
leaves the persisted entity unchanged. -/
def apply_block_to_system (user : Option DBUser) (saveOk : Bool)
    (block_type : BlockType) (expire_time : Option Int) : Bool × Option DBUser :=
  match user with
  | none => (false, none)
  | some u =>
    let expire_datetime : Option Int :=
      match expire_time with
      | some e => if e = 0 then none else some e
      | none => none
    let u2 :=
      match block_type with
      | BlockType.PREVENT_TRIGGER => { u with prevent_trigger_until := expire_datetime }
      | BlockType.FULL_BLOCK => { u with ban_until := expire_datetime }
    if saveOk then (true, some u2) else (false, some u)

/-- Embedding of `utils.remove_block_from_system`: clears the field selected by
`block_type` and persists; same failure contract as `apply_block_to_system`. -/
def remove_block_from_system (user : Option DBUser) (saveOk : Bool)
    (block_type : BlockType) : Bool × Option DBUser :=
  match user with
  | none => (false, none)
  | some u =>
    let u2 :=
      match block_type with
      | BlockType.PREVENT_TRIGGER => { u with prevent_trigger_until := none }
      | BlockType.FULL_BLOCK => { u with ban_until := none }
    if saveOk then (true, some u2) else (false, some u)

/-- Embedding of `utils.get_block_data`: the store blob for the conversation key, or an
empty collection when absent. -/
def get_block_data (store : Option BlockData) : BlockData :=
  match store with
  | some d => d
  | none => ⟨[]⟩

/-- Result of the duration-handling block at the top of both block handlers
(`methods.py` lines 48-59 and 150-161): the permanence flag, the computed
expiry, and the (possibly reassigned) `duration_seconds` used for the
success message. -/
structure ResolvedDuration where
  is_permanent : Bool
  expire_time : Option Int
  duration_used : Option Int
deriving DecidableEq, Repr

/-- The duration-handling block shared verbatim by `block_user_prevent_trigger`
and `block_user_full`:
`if duration_seconds is None or duration_seconds < 0:` then permanent when
allowed, else fall back to `DEFAULT_BLOCK_SECONDS`; otherwise compute the
expiry from the explicit duration. -/
def resolveDuration (cfg : BlockConfig) (now : Int) (duration_seconds : Option Int) : ResolvedDuration :=
  let fallback : ResolvedDuration :=
    if cfg.ALLOW_PERMANENT_BLOCK then ⟨true, none, none⟩
    else ⟨false, calculate_expire_time cfg now (some cfg.DEFAULT_BLOCK_SECONDS),
          some cfg.DEFAULT_BLOCK_SECONDS⟩
  match duration_seconds with
  | none => fallback
  | some d =>
    if d < 0 then fallback
    else ⟨false, calculate_expire_time cfg now (some d), some d⟩

/-- The `BlockRecord(...)` construction inside the block handlers
(`methods.py` lines 86-94 and 188-196), with the duration already resolved. -/
def handlerBlockRecord (cfg : BlockConfig) (now : Int) (bt : BlockType)
    (reason : String) (duration_seconds : Option Int)
    (user_id username : String) : BlockRecord :=
  let d := resolveDuration cfg now duration_seconds
  { user_id := user_id, username := username, block_type := bt,
    reason := reason, start_time := now,
    expire_time := d.expire_time, is_permanent := d.is_permanent }

/-- The human-readable duration text built in the success branch of the
block handlers (`time_desc`). -/
def formatDurationDesc (is_permanent : Bool) (duration_used : Option Int) : String :=
  if is_permanent then "永久"
  else
    match duration_used with
    | some d =>
      let hours := d / 3600
      let minutes := (d % 3600) / 60
      if hours > 0 then
        (if minutes = 0 then toString hours ++ "小时"
         else toString hours ++ "小时" ++ toString minutes ++ "分钟")
      else toString minutes ++ "分钟"
    | none => ""  -- unreachable: the source asserts `duration_seconds is not None` here

/-- The handler results, abstracting the returned strings; each constructor
carries the data interpolated into the corresponding f-string. -/
inductive Msg where
  | featureDisabled (bt : BlockType)
  | userNotFound (identifier : String)
  | alreadyBlocked (username : String) (desc : String)
  | blockFailed (username : String)
  | blockSuccess (username : String) (time_desc : String) (reason : String)
  | notBlocked (username : String)
  | unblockFailed (username : String)
  | unblockSuccess (username : String)
deriving DecidableEq, Repr

/-- The external state threaded through a handler invocation: the store blob
for this conversation, the handler's `DBUser.get_or_none` lookup result, the
adapters' internal `get_user_by_unique_id` lookup result, and whether
`user.save()` succeeds. -/
structure SysWorld where
  store : Option BlockData
  dbLookup : Option DBUser
  sysLookup : Option DBUser
  saveOk : Bool
deriving DecidableEq, Repr

/-- The feature gate at the top of each block handler:
`config.ENABLE_PREVENT_TRIGGER` resp. `config.ENABLE_FULL_BLOCK`. -/
def enabled_flag (cfg : BlockConfig) : BlockType → Bool
  | BlockType.PREVENT_TRIGGER => cfg.ENABLE_PREVENT_TRIGGER
  | BlockType.FULL_BLOCK => cfg.ENABLE_FULL_BLOCK

/-- Embedding of `methods.block_user_prevent_trigger` (with `bt = PREVENT_TRIGGER`) and
`methods.block_user_full` (with `bt = FULL_BLOCK`): the two handlers are
textually identical except for the feature flag consulted, the block type
stored, and the message wording, so they are embedded once, parametrised by
the block type.  Pipeline: feature gate, duration resolution, user lookup,
load collection, already-blocked check, record construction, add to
collection, persist collection, apply to system, report. -/
def block_user (cfg : BlockConfig) (now : Int) (bt : BlockType)
    (user_identifier : String) (reason : String) (duration_seconds : Option Int)
    (w : SysWorld) : Msg × SysWorld :=
  if !enabled_flag cfg bt then (Msg.featureDisabled bt, w)
  else
    let d := resolveDuration cfg now duration_seconds
    match w.dbLookup with
    | none => (Msg.userNotFound user_identifier, w)
    | some user =>
      let block_data := get_block_data w.store
      match block_data.get_block user.unique_id with
      | some existing =>
        (Msg.alreadyBlocked user.username (get_block_type_description existing.block_type), w)
      | none =>
        let record := handlerBlockRecord cfg now bt reason duration_seconds
          user.unique_id user.username
        let bd2 := block_data.add_block record
        let w2 : SysWorld := { w with store := some bd2 }
        let res := apply_block_to_system w2.sysLookup w2.saveOk bt d.expire_time
        let w3 : SysWorld := { w2 with sysLookup := res.2 }
        if !res.1 then (Msg.blockFailed user.username, w3)
        else (Msg.blockSuccess user.username
          (formatDurationDesc d.is_permanent d.duration_used) reason, w3)

/-- Embedding of `methods.unblock_user`: user lookup, load collection, not-blocked check,
remove from system first, and only on success remove from the collection and
persist. -/
def unblock_user (user_identifier : String) (w : SysWorld) : Msg × SysWorld :=
  match w.dbLookup with
  | none => (Msg.userNotFound user_identifier, w)
  | some user =>
    let block_data := get_block_data w.store
    match block_data.get_block user.unique_id with
    | none => (Msg.notBlocked user.username, w)
    | some block_record =>
      let res := remove_block_from_system w.sysLookup w.saveOk block_record.block_type
      let w2 : SysWorld := { w with sysLookup := res.2 }
      if !res.1 then (Msg.unblockFailed user.username, w2)
      else
        let bd2 := (block_data.remove_block user.unique_id).1
        (Msg.unblockSuccess user.username, { w2 with store := some bd2 })

/-- One line of the prompt summary built by `inject_blocked_users_prompt`:
block-type symbol, display name, remaining time (or `∞` when permanent),
and reason. -/
def promptLine (now : Int) (record : BlockRecord) : String :=
  let time_desc := if record.is_permanent then "∞" else format_time_remaining now record.expire_time
  let block_symbol := if record.block_type = BlockType.FULL_BLOCK then "🚫" else "🔇"
  "  " ++ block_symbol ++ " " ++ record.username ++ " (" ++ time_desc ++ ") - " ++ record.reason

/-- Embedding of `methods.inject_blocked_users_prompt`: display gate, load, cleanup,
unconditional persist, recompute active set, then render at most
`MAX_PROMPT_DISPLAY_COUNT` entries plus a "N more" marker when truncated.
Python's `list[:display_count]` for a nonnegative count is `List.take`;
the configuration constrains `MAX_PROMPT_DISPLAY_COUNT >= 1`.  The
exception swallowing around the whole body has no counterpart in the pure
model. -/
def inject_blocked_users_prompt (cfg : BlockConfig) (now : Int)
    (store : Option BlockData) : String × Option BlockData :=
  if !cfg.SHOW_BLOCKED_USERS_IN_PROMPT then ("", store)
  else
    let bd := get_block_data store
    let bd2 := (bd.cleanup_expired now).1
    let store2 := some bd2
    let active := bd2.get_active_blocks now
    if active.isEmpty then ("", store2)
    else
      let display_count : Int := min (active.length : Int) cfg.MAX_PROMPT_DISPLAY_COUNT
      let display_blocks := active.take display_count.toNat
      let lines := ["Current Blocked Users:"] ++ display_blocks.map (fun p => promptLine now p.2)
      let lines :=
        if (active.length : Int) > display_count then
          lines ++ ["  ... and " ++ toString ((active.length : Int) - display_count) ++ " more"]
        else lines
      (String.intercalate "\n" lines, store2)

/-- C1: `calculate_expire_time` maps `None` to `None`; for a nonnegative
requested duration it returns `now + min(seconds, MAX_BLOCK_SECONDS)` when
the cap is positive (hence never exceeds `now + MAX_BLOCK_SECONDS`), and
`now + seconds` when the cap is zero. -/
theorem calculate_expire_time_spec (cfg : BlockConfig) (now s : Int) (hs : 0 ≤ s) :
    calculate_expire_time cfg now none = none ∧
    (0 < cfg.MAX_BLOCK_SECONDS →
      calculate_expire_time cfg now (some s) = some (now + min s cfg.MAX_BLOCK_SECONDS) ∧
      ∀ e, calculate_expire_time cfg now (some s) = some e → e ≤ now + cfg.MAX_BLOCK_SECONDS) ∧
    (cfg.MAX_BLOCK_SECONDS = 0 →
      calculate_expire_time cfg now (some s) = some (now + s)) := by
  refine ⟨rfl, fun hpos => ⟨?_, ?_⟩, fun hzero => ?_⟩
  · simp [calculate_expire_time, hpos]
  · intro e he
    simp only [calculate_expire_time, if_pos hpos, Option.some.injEq] at he
    omega
  · simp [calculate_expire_time, hzero]

/-- Witness for C1 at the spec's own example: cap 86400, requested 999999,
result `now + 86400`. -/
theorem calculate_expire_time_spec_witness :
    (0 : Int) ≤ 999999 ∧
    (calculate_expire_time ⟨true, true, 86400, 86400, false, true, 5⟩ 1000 none = none ∧
    (0 < (86400 : Int) →
      calculate_expire_time ⟨true, true, 86400, 86400, false, true, 5⟩ 1000 (some 999999) =
        some (1000 + min 999999 86400) ∧
      ∀ e, calculate_expire_time ⟨true, true, 86400, 86400, false, true, 5⟩ 1000 (some 999999) = some e →
        e ≤ 1000 + 86400) ∧
    ((86400 : Int) = 0 →
      calculate_expire_time ⟨true, true, 86400, 86400, false, true, 5⟩ 1000 (some 999999) =
        some (1000 + 999999))) :=
  ⟨by decide, calculate_expire_time_spec ⟨true, true, 86400, 86400, false, true, 5⟩ 1000 999999 (by decide)⟩

/-- C4: every `BlockRecord` constructed by the block handlers has
`is_permanent` true exactly when `expire_time` is `None` — for every
combination of duration argument and configuration. -/
theorem handler_record_permanence_invariant (cfg : BlockConfig) (now : Int)
    (bt : BlockType) (reason : String) (duration_seconds : Option Int)
    (user_id username : String) :
    (handlerBlockRecord cfg now bt reason duration_seconds user_id username).is_permanent =
      (handlerBlockRecord cfg now bt reason duration_seconds user_id username).expire_time.isNone := by
  unfold handlerBlockRecord resolveDuration calculate_expire_time
  cases duration_seconds with
  | none => by_cases h : cfg.ALLOW_PERMANENT_BLOCK <;> simp [h]
  | some d =>
    by_cases hd : d < 0 <;> by_cases h : cfg.ALLOW_PERMANENT_BLOCK <;> simp [h, hd]

/-- The duration-resolution policy written out per C8's words: an explicit
nonnegative duration gives a non-permanent record expiring at
`calculate_expire_time(duration)`; an absent or negative duration gives a
permanent record when `ALLOW_PERMANENT_BLOCK` holds and otherwise falls back
to `DEFAULT_BLOCK_SECONDS`, non-permanent. -/
def resolveDurationClaim (cfg : BlockConfig) (now : Int) (duration_seconds : Option Int) : ResolvedDuration :=
  match duration_seconds with
  | some d =>
    if 0 ≤ d then ⟨false, calculate_expire_time cfg now (some d), some d⟩
    else if cfg.ALLOW_PERMANENT_BLOCK then ⟨true, none, none⟩
    else ⟨false, calculate_expire_time cfg now (some cfg.DEFAULT_BLOCK_SECONDS),
          some cfg.DEFAULT_BLOCK_SECONDS⟩
  | none =>
    if cfg.ALLOW_PERMANENT_BLOCK then ⟨true, none, none⟩
    else ⟨false, calculate_expire_time cfg now (some cfg.DEFAULT_BLOCK_SECONDS),
          some cfg.DEFAULT_BLOCK_SECONDS⟩

/-- C8: the handlers' duration resolution coincides with the claimed policy
on every configuration, time and duration argument. -/
theorem resolveDuration_eq_claim (cfg : BlockConfig) (now : Int) (duration_seconds : Option Int) :
    resolveDuration cfg now duration_seconds = resolveDurationClaim cfg now duration_seconds := by
  unfold resolveDuration resolveDurationClaim
  cases duration_seconds with
  | none => rfl
  | some d =>
    by_cases hd : d < 0
    · have : ¬ 0 ≤ d := by omega
      simp [hd, this]
    · have : 0 ≤ d := by omega
      simp [hd, this]

/-- C9: applying a block with no expiry (or with the zero timestamp, which
the truthiness test maps to `None`) performs exactly the mutation that
removing the block performs: both clear the field selected by the block
type. -/
theorem apply_none_eq_remove (user : Option DBUser) (saveOk : Bool) (bt : BlockType) :
    apply_block_to_system user saveOk bt none = remove_block_from_system user saveOk bt ∧
    apply_block_to_system user saveOk bt (some 0) = remove_block_from_system user saveOk bt := by
  cases user with
  | none => exact ⟨rfl, rfl⟩
  | some u => cases bt <;> simp [apply_block_to_system, remove_block_from_system]

/-- The filter condition of `get_active_blocks` in propositional form: the
record is permanent, or its expiry is set to a nonzero value strictly after
`t`.  The nonzero requirement is the Python truthiness of `expire_time`. -/
theorem activeCond_iff (t : Int) (r : BlockRecord) :
    activeCond t r = true ↔
      (r.is_permanent = true ∨ ∃ e, r.expire_time = some e ∧ e ≠ 0 ∧ t < e) := by
  cases h : r.expire_time with
  | none => simp [activeCond, intTruthy, h]
  | some e =>
    simp only [activeCond, intTruthy, h, Bool.or_eq_true, Bool.and_eq_true,
      bne_iff_ne, decide_eq_true_eq, Option.some.injEq]
    constructor
    · rintro (hp | ⟨hne, hgt⟩)
      · exact Or.inl hp
      · exact Or.inr ⟨e, rfl, hne, hgt⟩
    · rintro (hp | ⟨e', he', hne, hgt⟩)
      · exact Or.inl hp
      · exact Or.inr ⟨he' ▸ hne, he' ▸ hgt⟩

/-- Example record for C2: non-permanent, with `expire_time` set to the zero
timestamp. -/
def recActiveZero : BlockRecord :=
  { user_id := "onebot_v11:1", username := "u1", block_type := BlockType.PREVENT_TRIGGER,
    reason := "r", start_time := 0, expire_time := some 0, is_permanent := false }

/-- Example collection for C2. -/
def bdActiveZero : BlockData := ⟨[("onebot_v11:1", recActiveZero)]⟩

/-- C2 counterexample: a non-permanent record whose `expire_time` is set to
`0` satisfies the claim's condition at `t = -1` (`expire_time` is set and
`0 > -1`), yet `get_active_blocks` omits it, because the Python truthiness
test `record.expire_time and ...` is false at `0`. -/
theorem get_active_blocks_claim_counterexample :
    recActiveZero.is_permanent = false ∧
    recActiveZero.expire_time = some 0 ∧
    ((-1 : Int) < 0) ∧
    ("onebot_v11:1", recActiveZero) ∈ bdActiveZero.blocks ∧
    ("onebot_v11:1", recActiveZero) ∉ bdActiveZero.get_active_blocks (-1) := by
  decide

/-- C2 (amended): `get_active_blocks t` contains exactly the entries of the
collection whose record is permanent or has its expiry set to a nonzero
value strictly greater than `t`; hence every permanent record is included
and a non-permanent record expiring exactly at `t` is excluded. -/
theorem get_active_blocks_spec (bd : BlockData) (t : Int) (u : String) (r : BlockRecord) :
    (u, r) ∈ bd.get_active_blocks t ↔
      ((u, r) ∈ bd.blocks ∧
        (r.is_permanent = true ∨ ∃ e, r.expire_time = some e ∧ e ≠ 0 ∧ t < e)) := by
  unfold BlockData.get_active_blocks
  rw [List.mem_filter, activeCond_iff]

/-- Deleting a key different from the head key commutes with the head. -/
theorem dictDelete_cons_ne (k k' : String) (v : BlockRecord)
    (l : List (String × BlockRecord)) (h : k' ≠ k) :
    dictDelete k ((k', v) :: l) = (k', v) :: dictDelete k l := by
  simp [dictDelete, h]

/-- Folding `dictDelete` over keys that avoid the head entry keeps the head. -/
theorem foldl_dictDelete_cons_notmem (ks : List String) (k : String) (v : BlockRecord)
    (l : List (String × BlockRecord)) (h : k ∉ ks) :
    ks.foldl (fun bs u => dictDelete u bs) ((k, v) :: l) =
      (k, v) :: ks.foldl (fun bs u => dictDelete u bs) l := by
  induction ks generalizing l with
  | nil => rfl
  | cons k0 ks ih =>
    have hne : k ≠ k0 := fun he => h (he ▸ List.mem_cons_self k0 ks)
    have hnm : k ∉ ks := fun hm => h (List.mem_cons_of_mem k0 hm)
    simp only [List.foldl_cons, dictDelete_cons_ne k0 k v l hne]
    exact ih (dictDelete k0 l) hnm

/-- For a collection with no duplicate keys, the two-phase deletion of
`cleanup_expired` (collect matching keys, then delete each) is the filter
keeping the non-matching entries. -/
theorem foldl_dictDelete_filter (t : Int) (l : List (String × BlockRecord))
    (h : (l.map Prod.fst).Nodup) :
    ((l.filter (fun p => expiredCond t p.2)).map Prod.fst).foldl
        (fun bs u => dictDelete u bs) l =
      l.filter (fun p => !expiredCond t p.2) := by
  induction l with
  | nil => rfl
  | cons hd tl ih =>
    obtain ⟨k, v⟩ := hd
    simp only [List.map_cons, List.nodup_cons] at h
    obtain ⟨hk, htl⟩ := h
    by_cases hp : expiredCond t v = true
    · have e1 : List.filter (fun p => expiredCond t p.2) ((k, v) :: tl) =
          (k, v) :: List.filter (fun p => expiredCond t p.2) tl := by
        simp [List.filter_cons, hp]
      have e2 : List.filter (fun p => !expiredCond t p.2) ((k, v) :: tl) =
          List.filter (fun p => !expiredCond t p.2) tl := by
        simp [List.filter_cons, hp]
      rw [e1, e2]
      simp only [List.map_cons, List.foldl_cons]
      have hdel : dictDelete k ((k, v) :: tl) = tl := by simp [dictDelete]
      rw [hdel, ih htl]
    · have hp' : expiredCond t v = false := by
        cases hx : expiredCond t v
        · rfl
        · exact absurd hx hp
      have hsub : k ∉ (tl.filter (fun p => expiredCond t p.2)).map Prod.fst := by
        intro hmem
        exact hk (by
          rcases List.mem_map.1 hmem with ⟨p, hpmem, hpk⟩
          exact List.mem_map.2 ⟨p, List.mem_of_mem_filter hpmem, hpk⟩)
      have e1 : List.filter (fun p => expiredCond t p.2) ((k, v) :: tl) =
          List.filter (fun p => expiredCond t p.2) tl := by
        simp [List.filter_cons, hp']
      have e2 : List.filter (fun p => !expiredCond t p.2) ((k, v) :: tl) =
          (k, v) :: List.filter (fun p => !expiredCond t p.2) tl := by
        simp [List.filter_cons, hp']
      rw [e1, e2]
      rw [foldl_dictDelete_cons_notmem _ k v tl hsub, ih htl]

/-- Complementary filters partition the length of a list. -/
theorem length_filter_add_length_filter_not (t : Int) (l : List (String × BlockRecord)) :
    (l.filter (fun p => expiredCond t p.2)).length +
      (l.filter (fun p => !expiredCond t p.2)).length = l.length := by
  induction l with
  | nil => rfl
  | cons hd tl ih =>
    by_cases hp : expiredCond t hd.2 = true
    · simp [List.filter_cons, hp]; omega
    · have hp' : expiredCond t hd.2 = false := by
        cases hx : expiredCond t hd.2
        · rfl
        · exact absurd hx hp
      simp [List.filter_cons, hp']; omega

/-- The collection condition of `cleanup_expired` in propositional form:
non-permanent with the expiry set to a nonzero value at or before `t`. -/
theorem expiredCond_iff (t : Int) (r : BlockRecord) :
    expiredCond t r = true ↔
      (r.is_permanent = false ∧ ∃ e, r.expire_time = some e ∧ e ≠ 0 ∧ e ≤ t) := by
  cases h : r.expire_time with
  | none => simp [expiredCond, intTruthy, h]
  | some e =>
    simp only [expiredCond, intTruthy, h, Bool.and_eq_true, bne_iff_ne,
      decide_eq_true_eq, Bool.not_eq_true', Option.some.injEq]
    constructor
    · rintro ⟨⟨hperm, hne⟩, hle⟩
      exact ⟨hperm, e, rfl, hne, hle⟩
    · rintro ⟨hperm, e', he', hne, hle⟩
      exact ⟨⟨hperm, he' ▸ hne⟩, he' ▸ hle⟩

/-- Example record for C3: non-permanent, with `expire_time` set to the zero
timestamp. -/
def recCleanZero : BlockRecord :=
  { user_id := "onebot_v11:2", username := "u2", block_type := BlockType.FULL_BLOCK,
    reason := "r", start_time := 0, expire_time := some 0, is_permanent := false }

/-- Example collection for C3. -/
def bdCleanZero : BlockData := ⟨[("onebot_v11:2", recCleanZero)]⟩

/-- C3 counterexample: a non-permanent record whose `expire_time` is set to
`0` satisfies the claim's removal condition at `t = 0` (`expire_time` is set
and `0 ≤ 0`), yet `cleanup_expired` removes nothing and returns count `0`,
because the Python truthiness test `record.expire_time and ...` is false at
`0`. -/
theorem cleanup_expired_claim_counterexample :
    recCleanZero.is_permanent = false ∧
    recCleanZero.expire_time = some 0 ∧
    ((0 : Int) ≤ 0) ∧
    BlockData.cleanup_expired bdCleanZero 0 = (bdCleanZero, 0) := by
  decide

/-- C3 (amended): on a collection with no duplicate keys, `cleanup_expired t`
keeps exactly the entries that are not (non-permanent with expiry set to a
nonzero value at or before `t`), returns the number of removed records, and
a second call with the same `t` removes zero records. -/
theorem cleanup_expired_spec (bd : BlockData) (t : Int)
    (h : (bd.blocks.map Prod.fst).Nodup) :
    (∀ u r, (u, r) ∈ (bd.cleanup_expired t).1.blocks ↔
      ((u, r) ∈ bd.blocks ∧
        ¬(r.is_permanent = false ∧ ∃ e, r.expire_time = some e ∧ e ≠ 0 ∧ e ≤ t))) ∧
    (bd.cleanup_expired t).2 = bd.blocks.length - (bd.cleanup_expired t).1.blocks.length ∧
    ((bd.cleanup_expired t).1.cleanup_expired t).2 = 0 := by
  have h1 : (bd.cleanup_expired t).1.blocks = bd.blocks.filter (fun p => !expiredCond t p.2) := by
    simpa [BlockData.cleanup_expired] using foldl_dictDelete_filter t bd.blocks h
  have h2 : (bd.cleanup_expired t).2 = (bd.blocks.filter (fun p => expiredCond t p.2)).length := by
    simp [BlockData.cleanup_expired]
  refine ⟨?_, ?_, ?_⟩
  · intro u r
    rw [h1, List.mem_filter]
    have hb : ((!expiredCond t r) = true) ↔ ¬ (expiredCond t r = true) := by simp
    rw [hb, expiredCond_iff]
  · rw [h2, h1]
    have := length_filter_add_length_filter_not t bd.blocks
    omega
  · have h3 : ((bd.cleanup_expired t).1.cleanup_expired t).2 =
        (((bd.cleanup_expired t).1.blocks.filter (fun p => expiredCond t p.2)).length) := by
      simp [BlockData.cleanup_expired]
    rw [h3, h1, List.filter_filter]
    simp

/-- Witness records for the C3 theorem: one expired non-permanent record and
one permanent record. -/
def recCleanA : BlockRecord :=
  { user_id := "onebot_v11:3", username := "u3", block_type := BlockType.PREVENT_TRIGGER,
    reason := "spam", start_time := 0, expire_time := some 50, is_permanent := false }

/-- Second witness record for the C3 theorem. -/
def recCleanB : BlockRecord :=
  { user_id := "onebot_v11:4", username := "u4", block_type := BlockType.FULL_BLOCK,
    reason := "abuse", start_time := 0, expire_time := none, is_permanent := true }

/-- Witness collection for the C3 theorem. -/
def bdCleanW : BlockData := ⟨[("onebot_v11:3", recCleanA), ("onebot_v11:4", recCleanB)]⟩

/-- Witness for C3 at `t = 100`: the hypotheses hold and the characterization
applies to a concrete two-record collection. -/
theorem cleanup_expired_spec_witness :
    (bdCleanW.blocks.map Prod.fst).Nodup ∧
    ((∀ u r, (u, r) ∈ (bdCleanW.cleanup_expired 100).1.blocks ↔
      ((u, r) ∈ bdCleanW.blocks ∧
        ¬(r.is_permanent = false ∧ ∃ e, r.expire_time = some e ∧ e ≠ 0 ∧ e ≤ 100))) ∧
    (bdCleanW.cleanup_expired 100).2 =
      bdCleanW.blocks.length - (bdCleanW.cleanup_expired 100).1.blocks.length ∧
    ((bdCleanW.cleanup_expired 100).1.cleanup_expired 100).2 = 0) :=
  ⟨by decide, cleanup_expired_spec bdCleanW 100 (by decide)⟩

/-- Looking up the key just assigned returns the assigned record. -/
theorem dictGet_dictSet_self (k : String) (v : BlockRecord) (l : List (String × BlockRecord)) :
    dictGet k (dictSet k v l) = some v := by
  induction l with
  | nil => simp [dictGet, dictSet]
  | cons hd tl ih =>
    obtain ⟨k', v'⟩ := hd
    by_cases hk : k' = k
    · simp [dictGet, dictSet, hk]
    · simp [dictGet, dictSet, hk, ih]

/-- C5: a block invocation (of either type) on a user that already has a
record returns the already-blocked message carrying the existing block
type's description and leaves the whole world — collection, store, and
external user entity — unchanged. -/
theorem block_user_already_blocked_no_mutation (cfg : BlockConfig) (now : Int)
    (bt : BlockType) (ident reason : String) (duration_seconds : Option Int)
    (w : SysWorld) (user : DBUser) (existing : BlockRecord)
    (hflag : enabled_flag cfg bt = true)
    (huser : w.dbLookup = some user)
    (hexist : (get_block_data w.store).get_block user.unique_id = some existing) :
    block_user cfg now bt ident reason duration_seconds w =
      (Msg.alreadyBlocked user.username (get_block_type_description existing.block_type), w) := by
  simp [block_user, hflag, huser, hexist]

/-- Witness configuration with both features enabled. -/
def cfgEnabled : BlockConfig :=
  { ENABLE_PREVENT_TRIGGER := true, ENABLE_FULL_BLOCK := true,
    MAX_BLOCK_SECONDS := 86400, DEFAULT_BLOCK_SECONDS := 3600,
    ALLOW_PERMANENT_BLOCK := false, SHOW_BLOCKED_USERS_IN_PROMPT := true,
    MAX_PROMPT_DISPLAY_COUNT := 5 }

/-- Witness user entity. -/
def userAlice : DBUser :=
  { unique_id := "onebot_v11:9", username := "alice",
    prevent_trigger_until := none, ban_until := none }

/-- Witness existing block record for Alice. -/
def recAlice : BlockRecord :=
  { user_id := "onebot_v11:9", username := "alice", block_type := BlockType.FULL_BLOCK,
    reason := "spam", start_time := 10, expire_time := some 500, is_permanent := false }

/-- Witness world in which Alice is already blocked. -/
def worldAliceBlocked : SysWorld :=
  { store := some ⟨[("onebot_v11:9", recAlice)]⟩,
    dbLookup := some userAlice, sysLookup := some userAlice, saveOk := true }

/-- Witness for C5: a prevent-trigger block request against the already
fully-blocked Alice returns the already-blocked message with the full-block
description and changes nothing. -/
theorem block_user_already_blocked_no_mutation_witness :
    enabled_flag cfgEnabled BlockType.PREVENT_TRIGGER = true ∧
    worldAliceBlocked.dbLookup = some userAlice ∧
    (get_block_data worldAliceBlocked.store).get_block userAlice.unique_id = some recAlice ∧
    block_user cfgEnabled 1000 BlockType.PREVENT_TRIGGER "9" "again" (some 60) worldAliceBlocked =
      (Msg.alreadyBlocked userAlice.username (get_block_type_description recAlice.block_type),
        worldAliceBlocked) :=
  ⟨rfl, rfl, by decide,
    block_user_already_blocked_no_mutation cfgEnabled 1000 BlockType.PREVENT_TRIGGER "9" "again"
      (some 60) worldAliceBlocked userAlice recAlice rfl rfl (by decide)⟩

/-- C6: in the unblock handler, a resolved user with no record yields the
not-blocked message with nothing written; with a record, the system-effect
removal is attempted first — on failure the message reports failure and the
store (hence the collection) is untouched, and only on success is the record
deleted and the collection persisted. -/
theorem unblock_user_spec (ident : String) (w : SysWorld) (user : DBUser)
    (huser : w.dbLookup = some user) :
    ((get_block_data w.store).get_block user.unique_id = none →
      unblock_user ident w = (Msg.notBlocked user.username, w)) ∧
    (∀ r, (get_block_data w.store).get_block user.unique_id = some r →
      (remove_block_from_system w.sysLookup w.saveOk r.block_type).1 = false →
      unblock_user ident w =
        (Msg.unblockFailed user.username,
          { w with sysLookup := (remove_block_from_system w.sysLookup w.saveOk r.block_type).2 }) ∧
      (unblock_user ident w).2.store = w.store) ∧
    (∀ r, (get_block_data w.store).get_block user.unique_id = some r →
      (remove_block_from_system w.sysLookup w.saveOk r.block_type).1 = true →
      unblock_user ident w =
        (Msg.unblockSuccess user.username,
          { w with
              sysLookup := (remove_block_from_system w.sysLookup w.saveOk r.block_type).2,
              store := some ((get_block_data w.store).remove_block user.unique_id).1 })) := by
  refine ⟨?_, ?_, ?_⟩
  · intro hnone
    simp [unblock_user, huser, hnone]
  · intro r hr hfail
    constructor
    · simp [unblock_user, huser, hr, hfail]
    · simp [unblock_user, huser, hr, hfail]
  · intro r hr hok
    simp [unblock_user, huser, hr, hok]

/-- Witness world in which Alice has never been blocked. -/
def worldAliceFree : SysWorld :=
  { store := some ⟨[]⟩, dbLookup := some userAlice, sysLookup := some userAlice, saveOk := true }

/-- Witness for C6: unblocking the never-blocked Alice returns the
not-blocked message and leaves the world unchanged. -/
theorem unblock_user_spec_witness :
    worldAliceFree.dbLookup = some userAlice ∧
    (get_block_data worldAliceFree.store).get_block userAlice.unique_id = none ∧
    unblock_user "9" worldAliceFree = (Msg.notBlocked userAlice.username, worldAliceFree) :=
  ⟨rfl, by decide, (unblock_user_spec "9" worldAliceFree userAlice rfl).1 (by decide)⟩

/-- C7: in the block path (either type), when every precondition passes but
the system-effect apply fails, the handler reports failure while the store
already holds the collection extended with the new block record — the state
is not rolled back. -/
theorem block_user_persisted_despite_failed_apply (cfg : BlockConfig) (now : Int)
    (bt : BlockType) (ident reason : String) (duration_seconds : Option Int)
    (w : SysWorld) (user : DBUser)
    (hflag : enabled_flag cfg bt = true)
    (huser : w.dbLookup = some user)
    (hnew : (get_block_data w.store).get_block user.unique_id = none)
    (hfail : (apply_block_to_system w.sysLookup w.saveOk bt
        (resolveDuration cfg now duration_seconds).expire_time).1 = false) :
    (block_user cfg now bt ident reason duration_seconds w).1 = Msg.blockFailed user.username ∧
    (block_user cfg now bt ident reason duration_seconds w).2.store =
      some ((get_block_data w.store).add_block
        (handlerBlockRecord cfg now bt reason duration_seconds user.unique_id user.username)) ∧
    (get_block_data (block_user cfg now bt ident reason duration_seconds w).2.store).get_block
        user.unique_id =
      some (handlerBlockRecord cfg now bt reason duration_seconds user.unique_id user.username) := by
  refine ⟨?_, ?_, ?_⟩
  · simp [block_user, hflag, huser, hnew, hfail]
  · simp [block_user, hflag, huser, hnew, hfail]
  · have h2 : (block_user cfg now bt ident reason duration_seconds w).2.store =
        some ((get_block_data w.store).add_block
          (handlerBlockRecord cfg now bt reason duration_seconds user.unique_id user.username)) := by
      simp [block_user, hflag, huser, hnew, hfail]
    rw [h2]
    have hkey : (handlerBlockRecord cfg now bt reason duration_seconds
        user.unique_id user.username).user_id = user.unique_id := by
      simp [handlerBlockRecord]
    simp [get_block_data, BlockData.add_block, BlockData.get_block, hkey, dictGet_dictSet_self]

/-- Witness world for C7: Alice resolves in the handler, but the adapter's
own lookup fails, so `apply_block_to_system` returns `false`. -/
def worldAliceApplyFails : SysWorld :=
  { store := some ⟨[]⟩, dbLookup := some userAlice, sysLookup := none, saveOk := true }

/-- Witness for C7: the failed full-block attempt reports failure while the
new record is already persisted in the store. -/
theorem block_user_persisted_despite_failed_apply_witness :
    enabled_flag cfgEnabled BlockType.FULL_BLOCK = true ∧
    worldAliceApplyFails.dbLookup = some userAlice ∧
    (get_block_data worldAliceApplyFails.store).get_block userAlice.unique_id = none ∧
    (apply_block_to_system worldAliceApplyFails.sysLookup worldAliceApplyFails.saveOk
      BlockType.FULL_BLOCK (resolveDuration cfgEnabled 1000 (some 60)).expire_time).1 = false ∧
    ((block_user cfgEnabled 1000 BlockType.FULL_BLOCK "9" "spam" (some 60) worldAliceApplyFails).1 =
        Msg.blockFailed userAlice.username ∧
      (block_user cfgEnabled 1000 BlockType.FULL_BLOCK "9" "spam" (some 60) worldAliceApplyFails).2.store =
        some ((get_block_data worldAliceApplyFails.store).add_block
          (handlerBlockRecord cfgEnabled 1000 BlockType.FULL_BLOCK "spam" (some 60)
            userAlice.unique_id userAlice.username)) ∧
      (get_block_data (block_user cfgEnabled 1000 BlockType.FULL_BLOCK "9" "spam" (some 60)
          worldAliceApplyFails).2.store).get_block userAlice.unique_id =
        some (handlerBlockRecord cfgEnabled 1000 BlockType.FULL_BLOCK "spam" (some 60)
          userAlice.unique_id userAlice.username)) :=
  ⟨rfl, rfl, by decide, rfl,
    block_user_persisted_despite_failed_apply cfgEnabled 1000 BlockType.FULL_BLOCK "9" "spam"
      (some 60) worldAliceApplyFails userAlice rfl rfl (by decide) rfl⟩

/-- The active set the prompt-summary path renders: the collection loaded
from the store, after `cleanup_expired`, filtered by `get_active_blocks`. -/
def activeAfterCleanup (now : Int) (store : Option BlockData) : List (String × BlockRecord) :=
  (((get_block_data store).cleanup_expired now).1).get_active_blocks now

/-- C10: with the display flag on and a non-empty active set of size `n`,
the prompt summary is the header followed by exactly
`min n MAX_PROMPT_DISPLAY_COUNT` rendered entries, followed by a
"... and k more" marker with `k = n - MAX_PROMPT_DISPLAY_COUNT` exactly when
`n` exceeds `MAX_PROMPT_DISPLAY_COUNT`. -/
theorem inject_prompt_truncation (cfg : BlockConfig) (now : Int) (store : Option BlockData)
    (hshow : cfg.SHOW_BLOCKED_USERS_IN_PROMPT = true)
    (hmax : 1 ≤ cfg.MAX_PROMPT_DISPLAY_COUNT)
    (hne : activeAfterCleanup now store ≠ []) :
    (inject_blocked_users_prompt cfg now store).1 =
      String.intercalate "\n"
        (("Current Blocked Users:" ::
          ((activeAfterCleanup now store).take
            (min (activeAfterCleanup now store).length cfg.MAX_PROMPT_DISPLAY_COUNT.toNat)).map
              (fun p => promptLine now p.2)) ++
          (if cfg.MAX_PROMPT_DISPLAY_COUNT.toNat < (activeAfterCleanup now store).length then
            ["  ... and " ++
              toString (((activeAfterCleanup now store).length : Int) -
                cfg.MAX_PROMPT_DISPLAY_COUNT) ++ " more"]
          else [])) ∧
    (((activeAfterCleanup now store).take
        (min (activeAfterCleanup now store).length cfg.MAX_PROMPT_DISPLAY_COUNT.toNat)).map
          (fun p => promptLine now p.2)).length =
      min (activeAfterCleanup now store).length cfg.MAX_PROMPT_DISPLAY_COUNT.toNat := by
  constructor
  · have hempty : (activeAfterCleanup now store).isEmpty = false := by
      cases hA : (activeAfterCleanup now store).isEmpty
      · rfl
      · exact absurd (List.isEmpty_iff.mp hA) hne
    have e1 : (min ((activeAfterCleanup now store).length : Int)
        cfg.MAX_PROMPT_DISPLAY_COUNT).toNat =
        min (activeAfterCleanup now store).length cfg.MAX_PROMPT_DISPLAY_COUNT.toNat := by
      omega
    simp only [inject_blocked_users_prompt, hshow, Bool.not_true, Bool.false_eq_true,
      if_false, activeAfterCleanup] at *
    rw [hempty]
    simp only [Bool.false_eq_true, if_false]
    by_cases hgt : cfg.MAX_PROMPT_DISPLAY_COUNT.toNat <
        ((((get_block_data store).cleanup_expired now).1).get_active_blocks now).length
    · have hcond : ((((((get_block_data store).cleanup_expired now).1).get_active_blocks
          now).length : Int) >
          min (((((get_block_data store).cleanup_expired now).1).get_active_blocks
            now).length : Int) cfg.MAX_PROMPT_DISPLAY_COUNT) := by
        omega
      have hmin : min (((((get_block_data store).cleanup_expired now).1).get_active_blocks
          now).length : Int) cfg.MAX_PROMPT_DISPLAY_COUNT = cfg.MAX_PROMPT_DISPLAY_COUNT := by
        omega
      rw [if_pos hgt, if_pos hcond, hmin]
      rw [show min ((((get_block_data store).cleanup_expired now).1.get_active_blocks
          now).length) cfg.MAX_PROMPT_DISPLAY_COUNT.toNat = cfg.MAX_PROMPT_DISPLAY_COUNT.toNat
        from by omega]
      simp
    · have hcond : ¬ ((((((get_block_data store).cleanup_expired now).1).get_active_blocks
          now).length : Int) >
          min (((((get_block_data store).cleanup_expired now).1).get_active_blocks
            now).length : Int) cfg.MAX_PROMPT_DISPLAY_COUNT) := by
        omega
      rw [if_neg hgt, if_neg hcond, e1, List.append_nil]
      simp
  · rw [List.length_map, List.length_take]
    omega

/-- A permanent block record used to build witness collections. -/
def permRecord (uid uname rsn : String) (bt : BlockType) : BlockRecord :=
  { user_id := uid, username := uname, block_type := bt, reason := rsn,
    start_time := 0, expire_time := none, is_permanent := true }

/-- Witness collection for C10: seven permanent block records. -/
def bdSeven : BlockData :=
  ⟨[("a:1", permRecord "a:1" "u1" "r1" BlockType.PREVENT_TRIGGER),
    ("a:2", permRecord "a:2" "u2" "r2" BlockType.FULL_BLOCK),
    ("a:3", permRecord "a:3" "u3" "r3" BlockType.PREVENT_TRIGGER),
    ("a:4", permRecord "a:4" "u4" "r4" BlockType.FULL_BLOCK),
    ("a:5", permRecord "a:5" "u5" "r5" BlockType.PREVENT_TRIGGER),
    ("a:6", permRecord "a:6" "u6" "r6" BlockType.FULL_BLOCK),
    ("a:7", permRecord "a:7" "u7" "r7" BlockType.PREVENT_TRIGGER)]⟩

/-- Witness for C10, the spec's Scenario 5: display cap 5, seven active
blocks — five entries plus a "2 more" marker. -/
theorem inject_prompt_truncation_witness :
    cfgEnabled.SHOW_BLOCKED_USERS_IN_PROMPT = true ∧
    1 ≤ cfgEnabled.MAX_PROMPT_DISPLAY_COUNT ∧
    activeAfterCleanup 1000 (some bdSeven) ≠ [] ∧
    ((inject_blocked_users_prompt cfgEnabled 1000 (some bdSeven)).1 =
      String.intercalate "\n"
        (("Current Blocked Users:" ::
          ((activeAfterCleanup 1000 (some bdSeven)).take
            (min (activeAfterCleanup 1000 (some bdSeven)).length
              cfgEnabled.MAX_PROMPT_DISPLAY_COUNT.toNat)).map
              (fun p => promptLine 1000 p.2)) ++
          (if cfgEnabled.MAX_PROMPT_DISPLAY_COUNT.toNat <
              (activeAfterCleanup 1000 (some bdSeven)).length then
            ["  ... and " ++
              toString (((activeAfterCleanup 1000 (some bdSeven)).length : Int) -
                cfgEnabled.MAX_PROMPT_DISPLAY_COUNT) ++ " more"]
          else [])) ∧
    (((activeAfterCleanup 1000 (some bdSeven)).take
        (min (activeAfterCleanup 1000 (some bdSeven)).length
          cfgEnabled.MAX_PROMPT_DISPLAY_COUNT.toNat)).map
          (fun p => promptLine 1000 p.2)).length =
      min (activeAfterCleanup 1000 (some bdSeven)).length
        cfgEnabled.MAX_PROMPT_DISPLAY_COUNT.toNat) :=
  ⟨rfl, by decide, by decide,
    inject_prompt_truncation cfgEnabled 1000 (some bdSeven) rfl (by decide) (by decide)⟩
